import Mathlib

/-!
Shallow embedding of the transaction-classification core of the Finances
repository (`src/process_ing.py` and `src/util.py`): the account taxonomy,
journal entries with their balance check and text rendering, the
per-file import cursor (`TrackingFile`), the ordered classification rules of
`CSVProcessor.convert_transaction`, the interactive resolution flow, and
the suffix selection of `CSVProcessor.process`.

Amounts are modelled as exact rationals (the Python code uses `float`
for euro amounts; none of the verified properties depends on binary
floating-point rounding).  `CSVProcessor.match` compiles its patterns to a
single case-insensitive regex alternation `.*(p1|p2|...).*`; a regex
alternation matches iff one of its branches matches, so we model it as
`List.any` over a single-pattern match oracle `m : String → String → Bool`
and prove the classification theorems for an arbitrary oracle.  For
concrete evaluation `substrCI` implements the oracle for the plain-string
patterns (no regex metacharacters), where Python's semantics is exactly
case-insensitive substring search.
-/

/-- Does `p` occur as a prefix of `s` (character lists)? -/
def charsStart (p s : List Char) : Bool :=
  match p, s with
  | [], _ => true
  | _ :: _, [] => false
  | a :: as, b :: bs => a == b && charsStart as bs

/-- Does `p` occur as a contiguous sublist of `s`? -/
def charsInfix (p s : List Char) : Bool :=
  match s with
  | [] => p.isEmpty
  | _ :: rest => charsStart p s || charsInfix p rest

/-- Case-insensitive substring test: does `pat` occur in `s`?  This is the
Python semantics of `re.compile('.*(pat).*', re.IGNORECASE).match(s)` for
patterns without regex metacharacters. -/
def substrCI (s pat : String) : Bool :=
  charsInfix (pat.data.map Char.toLower) (s.data.map Char.toLower)

/-- Python `str.strip()` on a character list (the whitespace characters
occurring in practice). -/
def trimChars (l : List Char) : List Char :=
  ((l.dropWhile Char.isWhitespace).reverse.dropWhile Char.isWhitespace).reverse

/-- Python `str.split(sep)` for a one-character separator, on character
lists. -/
def splitOnChar (c : Char) : List Char → List (List Char)
  | [] => [[]]
  | a :: as =>
    if a == c then [] :: splitOnChar c as
    else
      match splitOnChar c as with
      | [] => [[a]]
      | p :: ps => (a :: p) :: ps

/-- The numeric value of a decimal digit. -/
def digitVal (c : Char) : Option ℕ :=
  if '0' ≤ c && c ≤ '9' then some (c.toNat - 48) else none

/-- A non-empty all-digit run parsed as a natural number. -/
def parseDigits (l : List Char) : Option ℕ :=
  if l.isEmpty then none
  else l.foldl (fun acc c => acc.bind fun n => (digitVal c).map fun d => n * 10 + d)
    (some 0)

/-- Python `int(s)` on the strings this program writes: an optional minus
sign followed by decimal digits. -/
def parseInt (l : List Char) : Option ℤ :=
  match l with
  | '-' :: rest => (parseDigits rest).map (fun n => -(n : ℤ))
  | _ => (parseDigits l).map (fun n => (n : ℤ))

/-- Left-justified padding to width `w`, Python `'{:<ws}'.format`. -/
def padTo (w : Nat) (s : String) : String :=
  s ++ String.mk (List.replicate (w - s.length) ' ')

/-- Zero-pad a natural number to two digits. -/
def pad2 (n : Nat) : String :=
  if n < 10 then "0" ++ toString n else toString n

/-- Zero-pad a natural number to four digits (Python `%Y`). -/
def pad4 (n : Nat) : String :=
  if n < 10 then "000" ++ toString n
  else if n < 100 then "00" ++ toString n
  else if n < 1000 then "0" ++ toString n
  else toString n

/-- Python `'{:.2f}'.format` on an exact rational: the value in cents is
`⌊q·100 + 1/2⌋ = ⌊(2·num·100 + den) / (2·den)⌋`, computed with integer
floor division.  Agrees with Python on every value that is a whole number
of cents (all values the flow produces); ties between half-cents round up
here where Python rounds the nearest binary float to even, and `-0.00` is
printed unsigned. -/
def fmt2 (q : ℚ) : String :=
  let c : ℤ := (2 * (q.num * 100) + (q.den : ℤ)).fdiv (2 * (q.den : ℤ))
  let sign := if c < 0 then "-" else ""
  let n := c.natAbs
  sign ++ toString (n / 100) ++ "." ++ pad2 (n % 100)

/-- The account taxonomy of `process_ing.py`: the members of the
`AssetAccounts`, `ExpenseAccounts` and `IncomeAccounts` enums.
(`util.py` repeats the same enums with two extra investment members that
no claim touches.) -/
inductive AccountEnum where
  | BANK_PAYMENT_ACCOUNT
  | BANK_SAVINGS
  | BANK_CREDITCARD
  | FOOD_AND_GROCERIES
  | ALCOHOL
  | PHONE_SUBSCRIPTION
  | DONATIONS
  | PUBLIC_TRANSPORT
  | DOMAIN_NAME
  | RENT
  | HEALTH_INSURANCE
  | LIABILITY_INSURANCE
  | OTHER_INSURANCE
  | SPORT
  | HAIRDRESSER
  | TUITION_FEES
  | TAX
  | MISC
  | SALARY_SSL
  | SALARY_HZFP
  | RENT_ALLOWANCE
  | HEALTH_ALLOWANCE
  | GIFTS
  | REPAYMENTS
  | BOARD_GRANT
  | STUDENT_GRANTS_LOANS
  | OTHER
  deriving DecidableEq, Repr

/-- The `.value` string of each enum member. -/
def AccountEnum.value : AccountEnum → String
  | .BANK_PAYMENT_ACCOUNT => "Assets:Bank:Payment account"
  | .BANK_SAVINGS => "Assets:Bank:Savings"
  | .BANK_CREDITCARD => "Assets:Bank:Creditcard"
  | .FOOD_AND_GROCERIES => "Expenses:Food and groceries"
  | .ALCOHOL => "Expenses:Alcohol"
  | .PHONE_SUBSCRIPTION => "Expenses:Phone:Subscription"
  | .DONATIONS => "Expenses:Donations"
  | .PUBLIC_TRANSPORT => "Expenses:Public transport"
  | .DOMAIN_NAME => "Expenses:Domain name"
  | .RENT => "Expenses:Room:Rent"
  | .HEALTH_INSURANCE => "Expenses:Insurance:Health"
  | .LIABILITY_INSURANCE => "Expenses:Insurance:Liability"
  | .OTHER_INSURANCE => "Expenses:Insurance:Other"
  | .SPORT => "Expenses:Sport"
  | .HAIRDRESSER => "Expenses:Hairdresser"
  | .TUITION_FEES => "Expenses:Tuition fees"
  | .TAX => "Expenses:Tax"
  | .MISC => "Expenses:Miscellaneous"
  | .SALARY_SSL => "Income:Salary:SSL Leiden"
  | .SALARY_HZFP => "Income:Salary:Het Zwarte Fietsenplan"
  | .RENT_ALLOWANCE => "Income:Allowance:Rent"
  | .HEALTH_ALLOWANCE => "Income:Allowance:Health"
  | .GIFTS => "Income:Gifts"
  | .REPAYMENTS => "Income:Repayments"
  | .BOARD_GRANT => "Income:Board grant"
  | .STUDENT_GRANTS_LOANS => "Income:DUO student grants and loans"
  | .OTHER => "Income:Other"

/-- `Account = namedtuple('Account', ['name', 'value'])`. -/
structure Account where
  name : AccountEnum
  value : ℚ
  deriving DecidableEq, Repr

/-- A calendar date as used by the scripts (named `TxnDate` because the
source reuses Python's `datetime.date`). -/
structure TxnDate where
  year : Nat
  month : Nat
  day : Nat
  deriving DecidableEq, Repr

/-- Chronological comparison of dates (Python's `date` ordering,
lexicographic on year, month, day). -/
def TxnDate.leb (a b : TxnDate) : Bool :=
  a.year < b.year ||
    (a.year == b.year &&
      (a.month < b.month || (a.month == b.month && a.day ≤ b.day)))

/-- `date.strftime("%Y/%m/%d")`. -/
def TxnDate.fmtSlash (d : TxnDate) : String :=
  pad4 d.year ++ "/" ++ pad2 d.month ++ "/" ++ pad2 d.day

/-- The `JournalEntry` class: a date, a description, four optional
account/value slots and a list of tags. -/
structure JournalEntry where
  date : TxnDate
  description : String
  account1 : Option Account := none
  account2 : Option Account := none
  account3 : Option Account := none
  account4 : Option Account := none
  tags : List String := []
  deriving DecidableEq, Repr

/-- `JournalEntry._check`: requires `account1` and `account2` to be set,
then sums the values of all present accounts and requires the sum to be
zero.  Raised `ValueError`s are modelled as `Except.error` with the
source's message. -/
def JournalEntry.check (e : JournalEntry) : Except String Unit :=
  match e.account1, e.account2 with
  | some a1, some a2 =>
    let s : ℚ := a1.value + a2.value
    let s : ℚ := match e.account3 with
      | some a3 => s + a3.value
      | none => s
    let s : ℚ := match e.account4 with
      | some a4 => s + a4.value
      | none => s
    if s ≠ 0 then Except.error "Sum of account* values is not equal to zero."
    else Except.ok ()
  | _, _ => Except.error "At least account1 and account2 need to be present"

/-- The tag section of the header line: `";   "` followed by each tag with
`": "` appended. -/
def tagsPart (tags : List String) : String :=
  if tags.isEmpty then ""
  else ";   " ++ String.join (tags.map (fun t => t ++ ": "))

/-- One rendered posting line:
`"    {:<40s}€{:.2f}\n".format(account.name.value, account.value)`. -/
def postingLine (a : Account) : String :=
  "    " ++ padTo 40 a.name.value ++ "€" ++ fmt2 a.value ++ "\n"

/-- The postings present in an entry, in slot order. -/
def JournalEntry.postings (e : JournalEntry) : List Account :=
  [e.account1, e.account2, e.account3, e.account4].filterMap id

/-- The sum of the amounts of the present postings. -/
def JournalEntry.postingsSum (e : JournalEntry) : ℚ :=
  (e.postings.map Account.value).sum

/-- The text built by `journal_str` after `_check` has passed: the header
line (date, description, optional tags), one indented line per present
posting, and a blank separator line. -/
def JournalEntry.renderText (e : JournalEntry) : String :=
  e.date.fmtSlash ++ " " ++ e.description ++ tagsPart e.tags ++ "\n" ++
    String.join (e.postings.map postingLine) ++ "\n"

/-- The `journal_str` property: runs `_check` (propagating its error),
then returns the rendered text. -/
def JournalEntry.journal_str (e : JournalEntry) : Except String String :=
  e.check.map (fun _ => e.renderText)

/-! ## Import cursor (`TrackingFile`)

The sidecar store `.import_csv_tracking` is modelled as its list of lines
(each line without its trailing newline, holding `key:value`). -/

/-- The key/value pairs parsed by `TrackingFile.__init__` from the store:
each line is stripped and split on `:`, the first piece is the key and the
second parses as an integer.  (Python builds a dict, so a later line with
the same key overrides an earlier one.) -/
def trackingValues (lines : List String) : List (String × ℤ) :=
  lines.filterMap (fun l =>
    match splitOnChar ':' (trimChars l.data) with
    | k :: v :: _ => (parseInt v).map (fun n => (String.mk k, n))
    | _ => none)

/-- Lookup of `TrackingFile.__init__`: the stored watermark for
`import_filename`, `-1` when the store holds no entry for it.  (Last
binding wins, as in the Python dict.) -/
def trackingGet (lines : List String) (import_filename : String) : ℤ :=
  match (trackingValues lines).reverse.find? (fun p => p.1 == import_filename) with
  | some p => p.2
  | none => -1

/-- The `current_id` setter: every line that *starts with*
`import_filename` is replaced by `"{import_filename}:{value}"`; all other
lines are copied unchanged, and the rewritten content replaces the file. -/
def trackingSetCurrentId (lines : List String) (import_filename : String)
    (value : ℤ) : List String :=
  lines.map (fun line =>
    if charsStart import_filename.data line.data then
      import_filename ++ ":" ++ toString value
    else line)

/-- `TrackingFile.__init__`: given the store content (`none` when the
sidecar file does not exist yet), returns the in-memory `_current_id` and
the store content after initialisation (a fresh store is created holding
only `import_filename:-1`; an existing store is left unchanged, even when
it has no entry for `import_filename`). -/
def trackingFileInit (store : Option (List String)) (import_filename : String) :
    ℤ × List String :=
  match store with
  | some lines => (trackingGet lines import_filename, lines)
  | none => (-1, [import_filename ++ ":-1"])

/-! ## Classifier (`CSVProcessor.convert_transaction`, rule chain) -/

/-- `CSVProcessor.match(s, *args)` builds the single regex
`.*(a1|a2|...).*` (case-insensitive); an alternation matches iff some
branch does, so the combined match is `List.any` over the single-pattern
oracle `m`. -/
def matchAny (m : String → String → Bool) (s : String) (pats : List String) : Bool :=
  pats.any (fun p => m s p)

/-- The `food_keywords` list. -/
def food_keywords : List String :=
  ["eten", "gnocchi", "pasta", "wraps", "thais", "indiaas", "roti", "pizza",
   "lasagne", "risotto", "chinees", "sushi", "wok"]

/-- The classifier's tentative decision: the counterparty account
(`account2` in the source) and the `ask` / `unknown` flags. -/
structure Classified where
  account2 : AccountEnum
  ask : Bool
  unknown : Bool
  deriving DecidableEq, Repr

/-- The spec's disposition vocabulary for a classifier decision. -/
inductive Disposition where
  | AUTO
  | CONFIRM
  | UNKNOWN
  deriving DecidableEq, Repr

/-- The disposition encoded by the `ask` / `unknown` flags. -/
def Classified.disposition (c : Classified) : Disposition :=
  if c.unknown then .UNKNOWN else if c.ask then .CONFIRM else .AUTO

/-- The pattern list of the first expense rule (supermarkets and food
vendors, extended by `food_keywords`). -/
def foodRulePatterns : List String :=
  ["Albert Heijn", "AH to Go", "AH togo", "AH Station", "Lidl", "Jumbo",
   "Dirk", "Spar sciencepark", "UvAScience", "Fuameh", "Smullers",
   "McDonald(?:\x27|\\s)?s", "\\bMcD\\b", "Broodzaak", "Julia\x27?s",
   "Thuisbezorgd"] ++ food_keywords

/-- The ordered `if`/`elif` rule chain of `convert_transaction` (lines
245–379 of `process_ing.py`), parameterised over the single-pattern match
oracle `m`. -/
def classify (m : String → String → Bool) (amount : ℚ) (description : String) :
    Classified :=
  if matchAny m description ["spaarrekening"] then
    ⟨.BANK_SAVINGS, false, false⟩
  -- === Expenses
  else if amount < 0 then
    if matchAny m description foodRulePatterns then
      ⟨.FOOD_AND_GROCERIES, false, false⟩
    else if matchAny m description ["VERENIGING INFORMATIEWETENSCH.AMSTERDAM"] then
      ⟨.FOOD_AND_GROCERIES, !matchAny m description ["Afschrijving POS"], false⟩
    else if matchAny m description
        ["Maslow", "DE HEEREN VAN AEMS", "Gall & Gall", "Jeda Horeca",
         "HOTSHOTS", "Bier", "Wodka"] then
      ⟨.ALCOHOL, false, false⟩
    else if matchAny m description ["Incasso Creditcard"] then
      ⟨.BANK_CREDITCARD, false, false⟩
    else if matchAny m description ["SIMYO"] then
      ⟨.PHONE_SUBSCRIPTION, false, false⟩
    else if matchAny m description ["UNICEF"] then
      ⟨.DONATIONS, false, false⟩
    else if matchAny m description ["\\bNS\\b"] then
      ⟨.PUBLIC_TRANSPORT, false, false⟩
    else if matchAny m description ["Transip"] then
      ⟨.DOMAIN_NAME, false, false⟩
    else if matchAny m description ["De Key"] && matchAny m description ["huur"] then
      ⟨.RENT, false, false⟩
    else if matchAny m description ["Zorgverzekering"] then
      ⟨.HEALTH_INSURANCE, false, false⟩
    else if matchAny m description ["Verzekering", "Verzekeraar"] then
      ⟨.OTHER_INSURANCE, false, false⟩
    else if matchAny m description ["AEGON"] then
      ⟨.LIABILITY_INSURANCE, false, false⟩
    else if matchAny m description ["Sportexpl.mij"] then
      ⟨.SPORT, false, false⟩
    else if matchAny m description ["Basic Kappers"] then
      ⟨.HAIRDRESSER, false, false⟩
    else if matchAny m description ["Belastingdienst"] then
      ⟨.TAX, false, false⟩
    else if matchAny m description ["Universiteit van Amsterdam"]
        && decide (1900 ≤ |amount|) then
      ⟨.TUITION_FEES, false, false⟩
    else if matchAny m description ["Betaalverzoek"] then
      ⟨.FOOD_AND_GROCERIES, true, false⟩
    else if matchAny m description ["\\bCafe\\b", "bier"] then
      ⟨.ALCOHOL, true, false⟩
    else
      ⟨.MISC, false, true⟩
  -- === Income
  else
    if matchAny m description ["ST.STUDIEBEGELEIDING LDN"] then
      ⟨.SALARY_SSL, false, false⟩
    else if matchAny m description ["HET ZWARTE FIETSENPLAN"] then
      ⟨.SALARY_HZFP, false, false⟩
    else if matchAny m description
        ["\\bDUO\\b", "Dienst Uitvoering Onderwijs", "Studiefinanciering"] then
      ⟨.STUDENT_GRANTS_LOANS, false, false⟩
    else if matchAny m description ["Huurtoeslag"] then
      ⟨.RENT_ALLOWANCE, false, false⟩
    else if matchAny m description ["Zorgtoeslag"] then
      ⟨.HEALTH_ALLOWANCE, false, false⟩
    else if matchAny m description ["Universiteit van Amsterdam"] then
      ⟨.BOARD_GRANT, decide (amount ≠ 275), false⟩
    else if matchAny m description ["Betaalverzoek"]
        && matchAny m description food_keywords then
      ⟨.FOOD_AND_GROCERIES, false, false⟩
    else if matchAny m description food_keywords then
      ⟨.FOOD_AND_GROCERIES, true, false⟩
    else
      ⟨.OTHER, false, true⟩

/-! ## Resolution flow (`convert_transaction`, interactive part) -/

/-- The accounts offered to the user: all members of `AssetAccounts`,
`ExpenseAccounts` and `IncomeAccounts`, in enum order. -/
def allAccounts : List AccountEnum :=
  [.BANK_PAYMENT_ACCOUNT, .BANK_SAVINGS, .BANK_CREDITCARD,
   .FOOD_AND_GROCERIES, .ALCOHOL, .PHONE_SUBSCRIPTION, .DONATIONS,
   .PUBLIC_TRANSPORT, .DOMAIN_NAME, .RENT, .HEALTH_INSURANCE,
   .LIABILITY_INSURANCE, .OTHER_INSURANCE, .SPORT, .HAIRDRESSER,
   .TUITION_FEES, .TAX, .MISC,
   .SALARY_SSL, .SALARY_HZFP, .RENT_ALLOWANCE, .HEALTH_ALLOWANCE, .GIFTS,
   .REPAYMENTS, .BOARD_GRANT, .STUDENT_GRANTS_LOANS, .OTHER]

/-- The `accounts_dict` lookup: the enum member whose `.value` is `s`. -/
def accountsDict (s : String) : Option AccountEnum :=
  allAccounts.find? (fun a => a.value == s)

/-- The prompt validator (line 424):
`lambda e: not e.strip() or e in accounts_dict` — blank input or a known
account label is accepted, everything else is rejected (and re-prompted by
the prompt widget). -/
def validatorAccepts (e : String) : Bool :=
  (trimChars e.data).isEmpty || (accountsDict e).isSome

/-- One iteration of the manual-entry loop, as seen from the outside:
the user declines to enter an account, cancels the prompt
(`KeyboardInterrupt`), or enters a string the validator accepted. -/
inductive ManualEvent where
  | declined
  | cancelled
  | entered (s : String)
  deriving DecidableEq, Repr

/-- The `while not confirmed` loop of the UNKNOWN escalation: cancelling
the prompt re-runs the loop; declining breaks with the tag flag set;
entering a blank string keeps the current account, a non-blank (validated)
string replaces it via `accounts_dict`.  Returns the final counterparty
account and whether `UNKNOWN_TRANSACTION` is tagged; `none` when the
event list is exhausted (the real loop would still be blocked on the user)
or when a non-blank string is not a taxonomy label (the validator makes
that unreachable). -/
def resolveManual : List ManualEvent → AccountEnum → Option (AccountEnum × Bool)
  | [], _ => none
  | .cancelled :: rest, acc => resolveManual rest acc
  | .declined :: _, acc => some (acc, true)
  | .entered s :: _, acc =>
    if (trimChars s.data).isEmpty then some (acc, false)
    else match accountsDict s with
      | some a => some (a, false)
      | none => none

/-- The user's answers consumed by one `convert_transaction` call: the
reply to `Is this correct?` (consulted only when `ask` is set) and the
manual-entry loop events. -/
structure UserIO where
  confirmCorrect : Bool
  manualEvents : List ManualEvent

/-- The result of `convert_transaction`: the finalized entry and the new
`unknown_count`. -/
structure ConvertResult where
  entry : JournalEntry
  unknown_count : ℕ
  deriving Repr

/-- `description = '{} - {}'.format(name, comment)`. -/
def mkDescription (name comment : String) : String :=
  name ++ " - " ++ comment

/-- `CSVProcessor.convert_transaction` (terminal output elided): classify
the transaction, consult the user when `ask` is set (a negative answer
escalates to unknown), on unknown increment the counter and run the
manual-entry loop, then assign
`account1 = (BANK_PAYMENT_ACCOUNT, amount)` and
`account2 = (account2, -amount)` on the entry. -/
def convert_transaction (m : String → String → Bool) (amount : ℚ)
    (name comment : String) (date : TxnDate) (transaction_id : ℤ)
    (user : UserIO) (unknown_count : ℕ) : Option ConvertResult :=
  let description := mkDescription name comment
  let full_trans_id := toString date.year ++ "-" ++ toString transaction_id
  let c := classify m amount description
  let unknown := c.unknown || (c.ask && !user.confirmCorrect)
  let entry0 : JournalEntry :=
    { date := date, description := full_trans_id ++ " - " ++ description }
  if unknown then
    match resolveManual user.manualEvents c.account2 with
    | none => none
    | some (acct, tagged) =>
      some ⟨{ entry0 with
                tags := if tagged then ["UNKNOWN_TRANSACTION"] else [],
                account1 := some ⟨.BANK_PAYMENT_ACCOUNT, amount⟩,
                account2 := some ⟨acct, -amount⟩ },
            unknown_count + 1⟩
  else
    some ⟨{ entry0 with
              account1 := some ⟨.BANK_PAYMENT_ACCOUNT, amount⟩,
              account2 := some ⟨c.account2, -amount⟩ },
          unknown_count⟩

/-! ## Suffix selection (`CSVProcessor.process`) -/

/-- One parsed CSV row as accumulated in `raw_entries`: date, signed
amount, name, comment. -/
structure RawEntry where
  date : TxnDate
  amount : ℚ
  name : String
  comment : String
  deriving DecidableEq, Repr

/-- Stable insertion of an entry into a date-sorted list (an entry is
placed before the first strictly later entry, keeping the original order
of equal dates). -/
def insertByDate (x : RawEntry) : List RawEntry → List RawEntry
  | [] => [x]
  | y :: ys => if x.date.leb y.date then x :: y :: ys else y :: insertByDate x ys

/-- `sorted(raw_entries, key=lambda e: e[0])`: a stable sort by date. -/
def sortByDate (l : List RawEntry) : List RawEntry :=
  l.foldr insertByDate []

/-- Pair the selected entries with their transaction ids, counting up from
the first id. -/
def assignIds : ℤ → List RawEntry → List (ℤ × RawEntry)
  | _, [] => []
  | t, e :: es => (t, e) :: assignIds (t + 1) es

/-- The rows actually processed by `CSVProcessor.process`, with their
transaction ids: the date-sorted list is sliced from
`transaction_id = current_id + 1` on
(`sorted(raw_entries, ...)[transaction_id:]`) and ids count up from
there.  (Python slicing with a negative index, i.e. `current_id < -1`,
is out of scope; the cursor is `≥ -1` by construction.) -/
def processSelection (raw : List RawEntry) (current_id : ℤ) :
    List (ℤ × RawEntry) :=
  assignIds (current_id + 1) ((sortByDate raw).drop (current_id + 1).toNat)

/-! ## Shared lemmas -/

theorem matchAny_singleton (m : String → String → Bool) (s p : String) :
    matchAny m s [p] = m s p := by
  simp [matchAny]

/-- Any successful `convert_transaction` result has the shape: entry dated
and described from the transaction, `account1 = (BANK_PAYMENT_ACCOUNT, amount)`,
`account2 = (acct, -amount)` for some counterparty account, empty third and
fourth slots. -/
theorem convert_transaction_some (m : String → String → Bool) (amount : ℚ)
    (name comment : String) (date : TxnDate) (tid : ℤ) (user : UserIO)
    (cnt : ℕ) (r : ConvertResult)
    (h : convert_transaction m amount name comment date tid user cnt = some r) :
    ∃ acct tags cnt',
      r = ⟨{ date := date,
             description := toString date.year ++ "-" ++ toString tid ++ " - " ++
               mkDescription name comment,
             account1 := some ⟨.BANK_PAYMENT_ACCOUNT, amount⟩,
             account2 := some ⟨acct, -amount⟩,
             account3 := none, account4 := none, tags := tags }, cnt'⟩ := by
  simp only [convert_transaction] at h
  split at h
  · rcases hres : resolveManual user.manualEvents
        (classify m amount (mkDescription name comment)).account2 with _ | ⟨acct, tagged⟩ <;>
      rw [hres] at h
    · cases h
    · exact ⟨acct, _, _, (Option.some.injEq _ _ ▸ h).symm⟩
  · exact ⟨_, _, _, (Option.some.injEq _ _ ▸ h).symm⟩

/-- When the classifier's `unknown` flag is set, a successful
`convert_transaction` increments the unknown counter. -/
theorem convert_transaction_unknown_count (m : String → String → Bool)
    (amount : ℚ) (name comment : String) (date : TxnDate) (tid : ℤ)
    (user : UserIO) (cnt : ℕ) (r : ConvertResult)
    (hu : (classify m amount (mkDescription name comment)).unknown = true)
    (h : convert_transaction m amount name comment date tid user cnt = some r) :
    r.unknown_count = cnt + 1 := by
  simp only [convert_transaction, hu, Bool.true_or, if_true] at h
  rcases hres : resolveManual user.manualEvents
      (classify m amount (mkDescription name comment)).account2 with _ | ⟨acct, tagged⟩ <;>
    rw [hres] at h
  · cases h
  · rw [← (Option.some.injEq _ _ ▸ h : _ = r)]

/-! ## Claims -/

/-- C1: every journal entry finalized by the flow carries exactly two
postings, `(Assets:Bank:Payment account, amount)` on `account1` and
`(counterparty, -amount)` on `account2`, so its posting amounts sum to
zero. -/
theorem convert_entry_two_postings_balanced (m : String → String → Bool)
    (amount : ℚ) (name comment : String) (date : TxnDate) (tid : ℤ)
    (user : UserIO) (cnt : ℕ) (r : ConvertResult)
    (h : convert_transaction m amount name comment date tid user cnt = some r) :
    r.entry.account1 = some ⟨.BANK_PAYMENT_ACCOUNT, amount⟩ ∧
    (∃ acct, r.entry.account2 = some ⟨acct, -amount⟩) ∧
    r.entry.account3 = none ∧ r.entry.account4 = none ∧
    r.entry.postings.length = 2 ∧
    r.entry.postingsSum = 0 := by
  obtain ⟨acct, tags, cnt', rfl⟩ :=
    convert_transaction_some m amount name comment date tid user cnt r h
  refine ⟨rfl, ⟨acct, rfl⟩, rfl, rfl, rfl, ?_⟩
  simp [JournalEntry.postingsSum, JournalEntry.postings]

def convertSampleDefault : ConvertResult :=
  ⟨{ date := ⟨0, 0, 0⟩, description := "" }, 0⟩

/-- A concrete savings transfer, processed without interaction. -/
def convertSample1 : ConvertResult :=
  (convert_transaction substrCI 310 "Overboeking spaarrekening" "" ⟨2023, 1, 5⟩ 0
    ⟨true, []⟩ 0).getD convertSampleDefault

theorem convert_entry_two_postings_balanced_witness :
    convertSample1.entry.account1 = some ⟨.BANK_PAYMENT_ACCOUNT, 310⟩ ∧
    convertSample1.entry.postings.length = 2 ∧
    convertSample1.entry.postingsSum = 0 := by
  have h := convert_entry_two_postings_balanced substrCI 310
    "Overboeking spaarrekening" "" ⟨2023, 1, 5⟩ 0 ⟨true, []⟩ 0 convertSample1 rfl
  exact ⟨h.1, h.2.2.2.2.1, h.2.2.2.2.2⟩

/-- C9: every journal entry finalized by the flow has `account1` and
`account2` set with opposite amounts, so its rendering never fails: both
error branches of the check are unreachable. -/
theorem convert_entry_render_ok (m : String → String → Bool)
    (amount : ℚ) (name comment : String) (date : TxnDate) (tid : ℤ)
    (user : UserIO) (cnt : ℕ) (r : ConvertResult)
    (h : convert_transaction m amount name comment date tid user cnt = some r) :
    r.entry.account1.isSome = true ∧ r.entry.account2.isSome = true ∧
    r.entry.journal_str = Except.ok r.entry.renderText := by
  obtain ⟨acct, tags, cnt', rfl⟩ :=
    convert_transaction_some m amount name comment date tid user cnt r h
  refine ⟨rfl, rfl, ?_⟩
  simp [JournalEntry.journal_str, JournalEntry.check, Except.map]

/-- A concrete unmatched outflow resolved by declining the manual entry. -/
def convertSample2 : ConvertResult :=
  (convert_transaction substrCI (-42) "Onbekende winkel" "pin" ⟨2024, 2, 2⟩ 7
    ⟨true, [ManualEvent.declined]⟩ 0).getD convertSampleDefault

theorem convert_entry_render_ok_witness :
    convertSample2.entry.journal_str = Except.ok convertSample2.entry.renderText :=
  (convert_entry_render_ok substrCI (-42) "Onbekende winkel" "pin" ⟨2024, 2, 2⟩ 7
    ⟨true, [ManualEvent.declined]⟩ 0 convertSample2 (by rfl)).2.2

/-- C6: the savings-transfer check runs before the sign branch: whatever
the amount's sign, a description matching `spaarrekening` is assigned
`Assets:Bank:Savings` with disposition AUTO. -/
theorem classify_spaarrekening_auto (m : String → String → Bool) (amount : ℚ)
    (d : String) (h : m d "spaarrekening" = true) :
    classify m amount d = ⟨.BANK_SAVINGS, false, false⟩ ∧
    (classify m amount d).account2 = .BANK_SAVINGS ∧
    (classify m amount d).disposition = .AUTO := by
  have hc : classify m amount d = ⟨.BANK_SAVINGS, false, false⟩ := by
    simp [classify, matchAny, h]
  exact ⟨hc, by rw [hc], by rw [hc]; rfl⟩

theorem classify_spaarrekening_auto_witness :
    classify substrCI (-310) "Overboeking naar Spaarrekening - sparen" =
      ⟨.BANK_SAVINGS, false, false⟩ ∧
    classify substrCI 310 "Van Spaarrekening - opname" =
      ⟨.BANK_SAVINGS, false, false⟩ :=
  ⟨(classify_spaarrekening_auto substrCI (-310)
      "Overboeking naar Spaarrekening - sparen" rfl).1,
   (classify_spaarrekening_auto substrCI 310
      "Van Spaarrekening - opname" rfl).1⟩


/-- C4 counterexample: a negative-amount description matching both a food
keyword and the insurance pattern, but also `spaarrekening`, is classified
to the savings account, not to `Expenses:Food and groceries`. -/
theorem classify_rule_order_counterexample :
    substrCI "overboeking spaarrekening pizza - " "pizza" = true ∧
    substrCI "overboeking spaarrekening pizza - " "Verzekering" = false ∧
    substrCI "spaarrekening pizza Verzekering - " "pizza" = true ∧
    substrCI "spaarrekening pizza Verzekering - " "Verzekering" = true ∧
    ((-5 : ℚ) < 0) ∧
    classify substrCI (-5) "spaarrekening pizza Verzekering - " =
      ⟨.BANK_SAVINGS, false, false⟩ ∧
    (classify substrCI (-5) "spaarrekening pizza Verzekering - ").account2 ≠
      .FOOD_AND_GROCERIES := by
  refine ⟨rfl, rfl, rfl, rfl, by norm_num, rfl, by decide⟩

/-- C4 amended: among a negative-amount transaction whose description does
not match the earlier savings rule, matching both a food keyword and an
insurance pattern yields the earlier food rule's account, not the
insurance account. -/
theorem classify_rule_order_first_wins (m : String → String → Bool)
    (amount : ℚ) (d : String)
    (hsav : m d "spaarrekening" = false)
    (hfood : m d "pizza" = true)
    (hins : m d "Verzekering" = true)
    (hneg : amount < 0) :
    (classify m amount d).account2 = .FOOD_AND_GROCERIES ∧
    (classify m amount d).account2 ≠ .OTHER_INSURANCE := by
  have h1 : matchAny m d ["spaarrekening"] = false := by simp [matchAny, hsav]
  have h2 : matchAny m d foodRulePatterns = true :=
    List.any_eq_true.mpr ⟨"pizza", by decide, hfood⟩
  have hc : classify m amount d = ⟨.FOOD_AND_GROCERIES, false, false⟩ := by
    simp [classify, h1, h2, hneg]
  rw [hc]
  exact ⟨rfl, by decide⟩

theorem classify_rule_order_first_wins_witness :
    (classify substrCI (-5) "Thuisbezorgd pizza - Verzekering").account2 =
      .FOOD_AND_GROCERIES :=
  (classify_rule_order_first_wins substrCI (-5) "Thuisbezorgd pizza - Verzekering"
    rfl rfl rfl (by norm_num)).1

/-- C7: a positive-amount transaction matching none of the income rules
falls back to `Income:Other` with disposition UNKNOWN and the unknown
counter is incremented by exactly 1; symmetrically an unmatched outflow
falls back to `Expenses:Miscellaneous`. -/
theorem classify_unmatched_fallback (m : String → String → Bool)
    (amount : ℚ) (name comment : String)
    (hpos : 0 < amount)
    (hsav : matchAny m (mkDescription name comment) ["spaarrekening"] = false)
    (h1 : matchAny m (mkDescription name comment) ["ST.STUDIEBEGELEIDING LDN"] = false)
    (h2 : matchAny m (mkDescription name comment) ["HET ZWARTE FIETSENPLAN"] = false)
    (h3 : matchAny m (mkDescription name comment)
      ["\\bDUO\\b", "Dienst Uitvoering Onderwijs", "Studiefinanciering"] = false)
    (h4 : matchAny m (mkDescription name comment) ["Huurtoeslag"] = false)
    (h5 : matchAny m (mkDescription name comment) ["Zorgtoeslag"] = false)
    (h6 : matchAny m (mkDescription name comment) ["Universiteit van Amsterdam"] = false)
    (h7 : matchAny m (mkDescription name comment) ["Betaalverzoek"] = false)
    (h8 : matchAny m (mkDescription name comment) food_keywords = false) :
    classify m amount (mkDescription name comment) = ⟨.OTHER, false, true⟩ ∧
    (classify m amount (mkDescription name comment)).disposition = .UNKNOWN ∧
    (∀ (date : TxnDate) (tid : ℤ) (user : UserIO) (cnt : ℕ) (r : ConvertResult),
        convert_transaction m amount name comment date tid user cnt = some r →
        r.unknown_count = cnt + 1) ∧
    (∀ amount' : ℚ, amount' < 0 →
        matchAny m (mkDescription name comment) foodRulePatterns = false →
        matchAny m (mkDescription name comment)
          ["VERENIGING INFORMATIEWETENSCH.AMSTERDAM"] = false →
        matchAny m (mkDescription name comment)
          ["Maslow", "DE HEEREN VAN AEMS", "Gall & Gall", "Jeda Horeca",
           "HOTSHOTS", "Bier", "Wodka"] = false →
        matchAny m (mkDescription name comment) ["Incasso Creditcard"] = false →
        matchAny m (mkDescription name comment) ["SIMYO"] = false →
        matchAny m (mkDescription name comment) ["UNICEF"] = false →
        matchAny m (mkDescription name comment) ["\\bNS\\b"] = false →
        matchAny m (mkDescription name comment) ["Transip"] = false →
        matchAny m (mkDescription name comment) ["De Key"] = false →
        matchAny m (mkDescription name comment) ["Zorgverzekering"] = false →
        matchAny m (mkDescription name comment) ["Verzekering", "Verzekeraar"] = false →
        matchAny m (mkDescription name comment) ["AEGON"] = false →
        matchAny m (mkDescription name comment) ["Sportexpl.mij"] = false →
        matchAny m (mkDescription name comment) ["Basic Kappers"] = false →
        matchAny m (mkDescription name comment) ["Belastingdienst"] = false →
        matchAny m (mkDescription name comment) ["\\bCafe\\b", "bier"] = false →
        classify m amount' (mkDescription name comment) = ⟨.MISC, false, true⟩) := by
  have hnot : ¬ amount < 0 := not_lt.mpr (le_of_lt hpos)
  have hc : classify m amount (mkDescription name comment) = ⟨.OTHER, false, true⟩ := by
    simp [classify, hsav, h1, h2, h3, h4, h5, h6, h7, h8, hnot]
  refine ⟨hc, by rw [hc]; rfl, ?_, ?_⟩
  · intro date tid user cnt r h
    exact convert_transaction_unknown_count m amount name comment date tid user cnt r
      (by rw [hc]) h
  · intro amount' hneg e1 e2 e3 e4 e5 e6 e7 e8 e9 e10 e11 e12 e13 e14 e15 e16
    simp [classify, hsav, hneg, h6, h7, e1, e2, e3, e4, e5, e6, e7, e8, e9,
      e10, e11, e12, e13, e14, e15, e16]

theorem classify_unmatched_fallback_witness :
    classify substrCI 7 (mkDescription "Acme Corp" "salary transfer") =
      ⟨.OTHER, false, true⟩ ∧
    (convert_transaction substrCI 7 "Acme Corp" "salary transfer" ⟨2023, 1, 5⟩ 3
        ⟨true, [ManualEvent.declined]⟩ 2).map ConvertResult.unknown_count = some 3 ∧
    classify substrCI (-7) (mkDescription "Acme Corp" "salary transfer") =
      ⟨.MISC, false, true⟩ := by
  have h := classify_unmatched_fallback substrCI 7 "Acme Corp" "salary transfer"
    (by norm_num) rfl rfl rfl rfl rfl rfl rfl rfl rfl
  refine ⟨h.1, ?_, ?_⟩
  · obtain ⟨r, hr⟩ : ∃ r, convert_transaction substrCI 7 "Acme Corp"
        "salary transfer" ⟨2023, 1, 5⟩ 3 ⟨true, [ManualEvent.declined]⟩ 2 =
          some r := ⟨_, by rfl⟩
    rw [hr]
    exact congrArg some
      (h.2.2.1 ⟨2023, 1, 5⟩ 3 ⟨true, [ManualEvent.declined]⟩ 2 r hr)
  · exact h.2.2.2 (-7) (by norm_num) rfl rfl rfl rfl rfl rfl rfl rfl rfl rfl rfl
      rfl rfl rfl rfl rfl

/-- C10: the outflow branch requires a strictly negative amount, so an
unmatched zero-amount transaction goes down the income branch and gets
`Income:Other` with disposition UNKNOWN, not `Expenses:Miscellaneous`. -/
theorem classify_zero_amount_income (m : String → String → Bool) (d : String)
    (hsav : matchAny m d ["spaarrekening"] = false)
    (h1 : matchAny m d ["ST.STUDIEBEGELEIDING LDN"] = false)
    (h2 : matchAny m d ["HET ZWARTE FIETSENPLAN"] = false)
    (h3 : matchAny m d
      ["\\bDUO\\b", "Dienst Uitvoering Onderwijs", "Studiefinanciering"] = false)
    (h4 : matchAny m d ["Huurtoeslag"] = false)
    (h5 : matchAny m d ["Zorgtoeslag"] = false)
    (h6 : matchAny m d ["Universiteit van Amsterdam"] = false)
    (h7 : matchAny m d ["Betaalverzoek"] = false)
    (h8 : matchAny m d food_keywords = false) :
    classify m 0 d = ⟨.OTHER, false, true⟩ ∧
    (classify m 0 d).account2 ≠ .MISC ∧
    (classify m 0 d).disposition = .UNKNOWN := by
  have hc : classify m 0 d = ⟨.OTHER, false, true⟩ := by
    simp [classify, hsav, h1, h2, h3, h4, h5, h6, h7, h8, lt_irrefl]
  exact ⟨hc, by rw [hc]; decide, by rw [hc]; rfl⟩

theorem classify_zero_amount_income_witness :
    classify substrCI 0 "Memo balans - nul" = ⟨.OTHER, false, true⟩ :=
  (classify_zero_amount_income substrCI "Memo balans - nul"
    rfl rfl rfl rfl rfl rfl rfl rfl rfl).1

/-- C8: in the UNKNOWN escalation the user either supplies an account
label (validated against the taxonomy: a non-blank string passes the
validator exactly when it is a known account label; cancelling the prompt
re-offers the choice instead of aborting) or declines, in which case the
entry keeps the fallback account and gains the tag
`UNKNOWN_TRANSACTION`. -/
theorem escalation_two_choices :
    (∀ (evs : List ManualEvent) (acc : AccountEnum),
        resolveManual (ManualEvent.cancelled :: evs) acc = resolveManual evs acc) ∧
    (∀ s : String, (trimChars s.data).isEmpty = false →
        (validatorAccepts s = true ↔ ∃ a, accountsDict s = some a)) ∧
    (∀ (s : String) (acc a : AccountEnum) (evs : List ManualEvent),
        accountsDict s = some a → (trimChars s.data).isEmpty = false →
        resolveManual (ManualEvent.entered s :: evs) acc = some (a, false)) ∧
    (∀ (evs : List ManualEvent) (acc : AccountEnum),
        resolveManual (ManualEvent.declined :: evs) acc = some (acc, true)) ∧
    (∀ (m : String → String → Bool) (amount : ℚ) (name comment : String)
        (date : TxnDate) (tid : ℤ) (b : Bool) (evs : List ManualEvent)
        (cnt : ℕ) (r : ConvertResult),
        ((classify m amount (mkDescription name comment)).unknown ||
          ((classify m amount (mkDescription name comment)).ask && !b)) = true →
        convert_transaction m amount name comment date tid
          ⟨b, ManualEvent.declined :: evs⟩ cnt = some r →
        r.entry.tags = ["UNKNOWN_TRANSACTION"] ∧
        r.entry.account2 =
          some ⟨(classify m amount (mkDescription name comment)).account2, -amount⟩) := by
  refine ⟨fun evs acc => rfl, ?_, ?_, fun evs acc => rfl, ?_⟩
  · intro s hne
    simp [validatorAccepts, hne, Option.isSome_iff_exists]
  · intro s acc a evs hdict hne
    simp [resolveManual, hne, hdict]
  · intro m amount name comment date tid b evs cnt r hu h
    simp only [convert_transaction, hu, if_true] at h
    simp only [resolveManual] at h
    rw [← (Option.some.injEq _ _ ▸ h : _ = r)]
    exact ⟨rfl, rfl⟩

theorem escalation_two_choices_witness :
    resolveManual [ManualEvent.cancelled, ManualEvent.declined] .MISC =
      resolveManual [ManualEvent.declined] .MISC ∧
    (validatorAccepts "Income:Gifts" = true ↔ ∃ a, accountsDict "Income:Gifts" = some a) ∧
    resolveManual [ManualEvent.entered "Expenses:Tax"] .MISC = some (.TAX, false) ∧
    resolveManual [ManualEvent.declined] .OTHER = some (.OTHER, true) ∧
    ((convert_transaction substrCI 12 "Onbekende gift" "bedankt" ⟨2024, 3, 3⟩ 9
        ⟨true, [ManualEvent.declined]⟩ 0).map (fun r => r.entry.tags) =
      some ["UNKNOWN_TRANSACTION"]) := by
  obtain ⟨c1, c2, c3, c4, c5⟩ := escalation_two_choices
  refine ⟨c1 [ManualEvent.declined] .MISC, c2 "Income:Gifts" rfl,
    c3 "Expenses:Tax" .MISC .TAX [] rfl rfl, c4 [] .OTHER, ?_⟩
  obtain ⟨r, hr⟩ : ∃ r, convert_transaction substrCI 12 "Onbekende gift"
      "bedankt" ⟨2024, 3, 3⟩ 9 ⟨true, [ManualEvent.declined]⟩ 0 = some r :=
    ⟨_, by rfl⟩
  rw [hr]
  exact congrArg some
    (c5 substrCI 12 "Onbekende gift" "bedankt" ⟨2024, 3, 3⟩ 9 true [] 0 r rfl hr).1

/-- C3: the cursor store fails to persist a watermark through
`advance` when the store file already exists without an entry for the
source file (the setter only rewrites existing lines, so the new key is
never written and a fresh process reads `-1` again), and its
`startswith`-based line matching rewrites the entry of a different key
that merely has the source filename as a prefix. -/
theorem tracking_advance_not_durable :
    trackingGet ["a.csv:3"] "b.csv" = -1 ∧
    (trackingFileInit (some ["a.csv:3"]) "b.csv").1 = -1 ∧
    trackingSetCurrentId ["a.csv:3"] "b.csv" 5 = ["a.csv:3"] ∧
    trackingGet (trackingSetCurrentId ["a.csv:3"] "b.csv" 5) "b.csv" = -1 ∧
    trackingSetCurrentId ["jan.csv2:7", "jan.csv:4"] "jan.csv" 5 =
      ["jan.csv:5", "jan.csv:5"] ∧
    trackingGet (trackingSetCurrentId ["jan.csv2:7", "jan.csv:4"] "jan.csv" 5)
      "jan.csv2" = -1 :=
  ⟨rfl, rfl, rfl, rfl, rfl, rfl⟩

/-- An entry with two present postings summing to zero, but placed in
slots 1 and 3: the render check still fails. -/
def entryMissingSlot2 : JournalEntry :=
  { date := ⟨2023, 1, 5⟩, description := "slots 1 and 3",
    account1 := some ⟨.BANK_PAYMENT_ACCOUNT, 5⟩,
    account3 := some ⟨.FOOD_AND_GROCERIES, -5⟩ }

/-- C5 counterexample: an entry with 2 present postings whose amounts sum
to zero is still rejected by rendering, because the check requires the
first two slots specifically. -/
theorem journal_str_counterexample :
    entryMissingSlot2.postings.length = 2 ∧
    entryMissingSlot2.postingsSum = 0 ∧
    entryMissingSlot2.journal_str =
      Except.error "At least account1 and account2 need to be present" := by
  refine ⟨rfl, ?_, rfl⟩
  show (5 : ℚ) + (-5 + 0) = 0
  norm_num

/-- C5 amended: rendering fails with the missing-accounts error when
`account1` or `account2` is absent (in particular whenever fewer than 2
postings are present), fails with the unbalanced error when both are
present but the present postings' amounts do not sum to zero, and
otherwise returns the rendered text (header line, one indented line per
posting with the amount formatted to 2 decimals, blank separator line). -/
theorem journal_str_spec (e : JournalEntry) :
    (e.account1 = none ∨ e.account2 = none →
        e.journal_str =
          Except.error "At least account1 and account2 need to be present") ∧
    (∀ a1 a2, e.account1 = some a1 → e.account2 = some a2 →
        (e.postingsSum ≠ 0 →
          e.journal_str =
            Except.error "Sum of account* values is not equal to zero.") ∧
        (e.postingsSum = 0 → e.journal_str = Except.ok e.renderText)) := by
  obtain ⟨d, desc, a1, a2, a3, a4, tags⟩ := e
  constructor
  · rintro (rfl | rfl)
    · cases a2 <;> rfl
    · cases a1 <;> rfl
  · rintro x1 x2 rfl rfl
    have hsum : (JournalEntry.mk d desc (some x1) (some x2) a3 a4 tags).postingsSum =
        x1.value + x2.value +
          (match a3 with | some y => y.value | none => 0) +
          (match a4 with | some y => y.value | none => 0) := by
      cases a3 <;> cases a4 <;>
        simp [JournalEntry.postingsSum, JournalEntry.postings] <;> ring
    constructor
    · intro hne
      rw [hsum] at hne
      cases a3 <;> cases a4 <;>
        · simp only [JournalEntry.journal_str, JournalEntry.check]
          rw [if_pos (by simpa using hne)]
          rfl
    · intro hz
      rw [hsum] at hz
      cases a3 <;> cases a4 <;>
        · simp only [JournalEntry.journal_str, JournalEntry.check]
          rw [if_neg (by simpa using hz)]
          rfl

/-- A balanced two-posting entry for evaluating the amended rendering
theorem. -/
def entryBalancedSample : JournalEntry :=
  { date := ⟨2023, 1, 5⟩, description := "2023-0 - Albert Heijn 1234 - ",
    account1 := some ⟨.BANK_PAYMENT_ACCOUNT, -19⟩,
    account2 := some ⟨.FOOD_AND_GROCERIES, 19⟩ }

theorem journal_str_spec_witness :
    entryBalancedSample.journal_str = Except.ok entryBalancedSample.renderText ∧
    entryBalancedSample.renderText =
      "2023/01/05 2023-0 - Albert Heijn 1234 - \n    Assets:Bank:Payment account             €-19.00\n    Expenses:Food and groceries             €19.00\n\n" := by
  constructor
  · exact ((journal_str_spec entryBalancedSample).2 _ _ rfl rfl).2 (by
      show (-19 : ℚ) + (19 + 0) = 0
      norm_num)
  · rfl

theorem length_insertByDate (x : RawEntry) (l : List RawEntry) :
    (insertByDate x l).length = l.length + 1 := by
  induction l with
  | nil => rfl
  | cons y ys ih =>
    unfold insertByDate
    split
    · rfl
    · simp [ih]

theorem length_sortByDate (l : List RawEntry) :
    (sortByDate l).length = l.length := by
  induction l with
  | nil => rfl
  | cons x xs ih =>
    show (insertByDate x (sortByDate xs)).length = xs.length + 1
    rw [length_insertByDate, ih]

theorem length_assignIds (t : ℤ) (l : List RawEntry) :
    (assignIds t l).length = l.length := by
  induction l generalizing t with
  | nil => rfl
  | cons e es ih => simp [assignIds, ih]

theorem mem_assignIds_le (t : ℤ) (l : List RawEntry) (p : ℤ × RawEntry) :
    p ∈ assignIds t l → t ≤ p.1 := by
  induction l generalizing t with
  | nil => intro h; cases h
  | cons e es ih =>
    intro h
    rw [assignIds] at h
    rcases List.mem_cons.mp h with rfl | hm
    · exact le_refl _
    · exact le_trans (by omega) (ih (t + 1) hm)

/-- The six rows of the C2 scenario, in date order. -/
def rows6 : List RawEntry :=
  [⟨⟨2023, 1, 1⟩, -1, "r0", ""⟩, ⟨⟨2023, 1, 2⟩, -2, "r1", ""⟩,
   ⟨⟨2023, 1, 3⟩, -3, "r2", ""⟩, ⟨⟨2023, 1, 4⟩, -4, "r3", ""⟩,
   ⟨⟨2023, 1, 5⟩, -5, "r4", ""⟩, ⟨⟨2023, 1, 6⟩, -6, "r5", ""⟩]

/-- C2 counterexample: transaction sequences are 0-based, so a 6-row file
carries sequences 0–5; with the cursor at sequence 4, the rerun processes
exactly one row (sequence 5) — there is no row with sequence 6, and two
rows are not processed as the claimed scenario states. -/
theorem process_cursor_counterexample :
    (processSelection rows6 (-1)).map Prod.fst = [0, 1, 2, 3, 4, 5] ∧
    processSelection rows6 4 = [(5, ⟨⟨2023, 1, 6⟩, -6, "r5", ""⟩)] ∧
    (processSelection rows6 4).length = 1 := by
  exact ⟨rfl, rfl, rfl⟩

/-- C2 amended: transactions are sorted by date and only the suffix after
the persisted `last_sequence` is processed; sequences are 0-based, so on
a 6-row file with the cursor at sequence 4 the rerun processes exactly
the single row with sequence 5, and in general every processed row gets a
sequence strictly greater than the cursor, so already-journaled
transactions are never re-emitted. -/
theorem process_cursor_suffix (raw : List RawEntry) (h : raw.length = 6) :
    (processSelection raw 4).length = 1 ∧
    (∀ p ∈ processSelection raw 4, p.1 = 5) ∧
    (∀ (cid : ℤ) (p : ℤ × RawEntry), p ∈ processSelection raw cid → cid < p.1) := by
  have hlen : ((sortByDate raw).drop 5).length = 1 := by
    rw [List.length_drop, length_sortByDate, h]
  refine ⟨?_, ?_, ?_⟩
  · show (assignIds 5 ((sortByDate raw).drop 5)).length = 1
    rw [length_assignIds, hlen]
  · intro p hp
    obtain ⟨e, he⟩ := List.length_eq_one.mp hlen
    have hp' : p ∈ assignIds 5 [e] := by
      have : processSelection raw 4 = assignIds 5 ((sortByDate raw).drop 5) := rfl
      rw [this, he] at hp
      exact hp
    simp [assignIds] at hp'
    rw [hp']
  · intro cid p hp
    have := mem_assignIds_le (cid + 1) ((sortByDate raw).drop (cid + 1).toNat) p hp
    omega

theorem process_cursor_suffix_witness :
    (processSelection rows6 4).length = 1 :=
  (process_cursor_suffix rows6 rfl).1
